import Mathlib

/-!
Verification of the aptos-agent swap/transfer core.

The TypeScript source is shallowly embedded: JavaScript numbers are modelled
as exact rationals (ℚ) or integers (ℤ/ℕ), `Math.floor`/`Math.ceil` as the
integer floor/ceiling on ℚ, `Math.round` as floor (x + 1/2), and JavaScript
string falsiness (empty string / undefined) via `Option String`.  External
effects (wallet lookup, chain view calls, transaction simulation, HTTP)
appear as explicit environment records: each network call is represented by
its outcome (`Option`/field), `none` standing for a thrown error, exactly as
the surrounding try/catch treats it.  Workflow nodes become total functions
from state and environment to the next state.
-/

/-- JavaScript `Math.round`: round half toward positive infinity. -/
def jsRound (q : ℚ) : ℤ := ⌊q + 1/2⌋

/-- JavaScript `a || b` on possibly-undefined strings: first truthy
(non-empty, defined) operand. -/
def jsOr (a b : Option String) : Option String :=
  match a with
  | some s => if s = "" then b else some s
  | none => b

/-- ASCII lower-casing, `String.toLowerCase` of JavaScript, computed
structurally over the character list. -/
def jsToLower (s : String) : String := String.mk (s.data.map Char.toLower)

/-- Structural lexicographic character-list comparison (JavaScript string
`<` on code units; identical on the ASCII addresses handled here). -/
def charsLt : List Char → List Char → Bool
  | [], [] => false
  | [], _ :: _ => true
  | _ :: _, [] => false
  | a :: as, b :: bs =>
    if a.toNat < b.toNat then true
    else if b.toNat < a.toNat then false
    else charsLt as bs

/-- JavaScript string `<`. -/
def strLt (a b : String) : Bool := charsLt a.data b.data

/-- Does the first character list start with the second one? -/
def startsWithChars : List Char → List Char → Bool
  | _, [] => true
  | [], _ :: _ => false
  | c :: cs, d :: ds => (c = d) && startsWithChars cs ds

/-- Substring containment on character lists. -/
def charsContain : List Char → List Char → Bool
  | [], need => startsWithChars [] need
  | c :: rest, need => startsWithChars (c :: rest) need || charsContain rest need

/-- JavaScript `haystack.includes(needle)` for strings. -/
def strContains (h n : String) : Bool := charsContain h.data n.data

/-- JavaScript `[a, b].sort().join(",")` for two defined strings. -/
def sortJoin (a b : String) : String :=
  if strLt b a then b ++ "," ++ a else a ++ "," ++ b

/-- JavaScript `[a, b].sort().join(",")` where either entry may be
`undefined`: `sort` moves `undefined` to the end and `join` renders it as
the empty string. -/
def sortJoinOpt (a b : Option String) : String :=
  match a, b with
  | some x, some y => sortJoin x y
  | some x, none => x ++ ","
  | none, some y => y ++ ","
  | none, none => ","

/-- Outcome of `aptosClient.transaction.simulate.simple`, after the
`parseInt` conversions applied by the callers. -/
structure SimResult where
  gas_unit_price : ℕ
  gas_used : ℕ
  max_gas_amount : ℕ
  deriving DecidableEq, Repr

/-- The gas estimate record propagated through both workflows
(`totalGasCostInAPT` / `maxGasCostInAPT`, in native APT units). -/
structure GasEstimation where
  totalGasCostInAPT : ℚ
  maxGasCostInAPT : ℚ
  deriving DecidableEq, Repr

/-- `getNetworkGasEstimation` from the swap subgraph: simulate a trivial
self-transfer, derive total and max cost, convert to APT and clamp to the
0.05 / 0.1 caps; a simulation failure (`none`) yields the fixed defaults
0.005 / 0.01. -/
def getNetworkGasEstimation (sim : Option SimResult) : GasEstimation :=
  match sim with
  | none => { totalGasCostInAPT := 5/1000, maxGasCostInAPT := 1/100 }
  | some s =>
    let estimatedMaxGas : ℕ := min (⌈(s.max_gas_amount : ℚ) * (12/10)⌉.toNat) 50000
    let totalGasCost : ℕ := s.gas_unit_price * s.gas_used
    let maxGasCost : ℕ := s.gas_unit_price * estimatedMaxGas
    let totalGasCostInAPT : ℚ := (totalGasCost : ℚ) / 100000000
    let maxGasCostInAPT : ℚ := (maxGasCost : ℚ) / 100000000
    { totalGasCostInAPT := min totalGasCostInAPT (5/100),
      maxGasCostInAPT := min maxGasCostInAPT (1/10) }

/-- A candidate pool as handled by the aggregator.  The optional token
fields mirror the duck-typed shapes produced by the different adapters
(`token_a`, `token_x`, `fa_coin_x_metadata`, `fa_coin_x_address`, and the
`y`/`b` counterparts); `estimatedOutput` and `minAmountOut` are filled in
by the re-quoting pass. -/
structure Pool where
  dexName : String
  token_a : Option String := none
  token_x : Option String := none
  fa_coin_x_metadata : Option String := none
  fa_coin_x_address : Option String := none
  token_b : Option String := none
  token_y : Option String := none
  fa_coin_y_metadata : Option String := none
  fa_coin_y_address : Option String := none
  poolId : String := ""
  estimatedOutput : ℕ := 0
  minAmountOut : ℤ := 0
  deriving DecidableEq, Repr

/-- `estimateSwapGas` from the swap subgraph: if no pool is available, fall
back to the baseline network estimation; otherwise simulate the selected
pool trade (`swapSim`, `none` when building or simulating throws, which
also falls back) and clamp the converted costs to 0.05 / 0.1 APT. -/
def estimateSwapGas (pools : List Pool) (swapSim : Option SimResult)
    (networkSim : Option SimResult) : GasEstimation :=
  match pools with
  | [] => getNetworkGasEstimation networkSim
  | _ :: _ =>
    match swapSim with
    | none => getNetworkGasEstimation networkSim
    | some s =>
      let totalGasCost : ℕ := s.gas_unit_price * s.gas_used
      let maxGasCost : ℕ := s.gas_unit_price * s.max_gas_amount
      { totalGasCostInAPT := min ((totalGasCost : ℚ) / 100000000) (5/100),
        maxGasCostInAPT := min ((maxGasCost : ℚ) / 100000000) (1/10) }

/-- The defensive ceiling claimed by the spec: total at most 0.05 APT and
max at most 0.1 APT. -/
def gasCapsOK (g : GasEstimation) : Prop :=
  g.totalGasCostInAPT ≤ 5/100 ∧ g.maxGasCostInAPT ≤ 1/10

/-- The swap request record (`SwapRequest`): the addresses of both tokens in
both addressing conventions, the parsed human-readable input amount
(`none` = `parseFloat` returned `NaN`), destination address, and the
optional slippage tolerance. -/
structure SwapRequest where
  faAddressIn : String
  faAddressOut : String
  tokenAddressIn : Option String := none
  tokenAddressOut : Option String := none
  amountIn : Option ℚ := none
  address : String := ""
  slippage : Option ℚ := none
  deriving DecidableEq, Repr

/-- The token extraction chain on the `x`/`a` side used by the aggregator
filter in `findPoolNode`:
`(token_a?.inner || token_a || token_x?.inner || token_x ||
fa_coin_x_metadata?.inner || fa_coin_x_metadata || fa_coin_x_address || "")
.toLowerCase()`. -/
def poolTokenA (p : Pool) : String :=
  jsToLower ((jsOr p.token_a (jsOr p.token_x (jsOr p.fa_coin_x_metadata
      p.fa_coin_x_address))).getD "")

/-- The matching extraction chain on the `y`/`b` side. -/
def poolTokenB (p : Pool) : String :=
  jsToLower ((jsOr p.token_b (jsOr p.token_y (jsOr p.fa_coin_y_metadata
      p.fa_coin_y_address))).getD "")

/-- The strict token-pair filter of `findPoolNode`: PancakeSwap pools are
matched against the coin-type addresses (with the `0xa` alias canonicalised
to the full AptosCoin type), all other pools against the fungible-asset
addresses (with the AptosCoin type folded back to `0xa`); both sides are
compared order-independently via sort-and-join. -/
def matchesPairFilter (req : SwapRequest) (p : Pool) : Bool :=
  let tokenA := poolTokenA p
  let tokenB := poolTokenB p
  let poolTokens := sortJoin tokenA tokenB
  if p.dexName = "PancakeSwap" then
    let reqTokenIn := (req.tokenAddressIn.map jsToLower).map
      (fun s => if s = "0xa" then "0x1::aptos_coin::aptoscoin" else s)
    let reqTokenOut := (req.tokenAddressOut.map jsToLower).map
      (fun s => if s = "0xa" then "0x1::aptos_coin::aptoscoin" else s)
    poolTokens = sortJoinOpt reqTokenIn reqTokenOut
  else
    let reqFaIn :=
      if jsToLower req.faAddressIn = "0x1::aptos_coin::aptoscoin" then "0xa"
      else jsToLower req.faAddressIn
    let reqFaOut :=
      if jsToLower req.faAddressOut = "0x1::aptos_coin::aptoscoin" then "0xa"
      else jsToLower req.faAddressOut
    poolTokens = sortJoin reqFaIn reqFaOut

/-- The best-effort substring fallback match applied when the strict filter
yields no pool. -/
def looseMatch (req : SwapRequest) (p : Pool) : Bool :=
  let tokenA := poolTokenA p
  let tokenB := poolTokenB p
  let requestTokens := ([jsToLower req.faAddressIn, jsToLower req.faAddressOut,
      (req.tokenAddressIn.map jsToLower).getD "",
      (req.tokenAddressOut.map jsToLower).getD ""]).filter (fun t => t ≠ "")
  requestTokens.any (fun t =>
    strContains tokenA t || strContains tokenB t ||
    strContains t tokenA || strContains t tokenB)

/-- Strict filter, then the substring fallback tier when it is empty. -/
def filteredWithFallback (req : SwapRequest) (allPools : List Pool) : List Pool :=
  let filteredPools := allPools.filter (matchesPairFilter req)
  if filteredPools.isEmpty then allPools.filter (looseMatch req) else filteredPools

/-- The re-quoting step of `findPoolNode`: each surviving pool is re-quoted
for the actual prepared swap amount (`est p amount`, with `none` standing
for a thrown estimation error, which is caught and turned into zeros), and
`minAmountOut` is recomputed as
`Math.floor(estimatedOutput * (1 - slippage / 100))`. -/
def requote (est : Pool → ℤ → Option ℕ) (slip : ℚ) (amount : ℤ) (p : Pool) : Pool :=
  match est p amount with
  | some o =>
    { p with estimatedOutput := o,
             minAmountOut := ⌊(o : ℚ) * (1 - slip / 100)⌋ }
  | none => { p with estimatedOutput := 0, minAmountOut := 0 }

/-- Comparator relation of the ranking sort
(`(b.estimatedOutput || 0) - (a.estimatedOutput || 0)`, descending). -/
def poolDescRel (a b : Pool) : Prop := b.estimatedOutput ≤ a.estimatedOutput

instance : DecidableRel poolDescRel := fun a b =>
  inferInstanceAs (Decidable (b.estimatedOutput ≤ a.estimatedOutput))

instance : IsTotal Pool poolDescRel :=
  ⟨fun a b => Nat.le_total b.estimatedOutput a.estimatedOutput⟩

instance : IsTrans Pool poolDescRel :=
  ⟨fun _ _ _ hab hbc => le_trans hbc hab⟩

/-- Strict version of `poolDescRel`; antisymmetric vacuously. -/
def poolStrictRel (a b : Pool) : Prop := b.estimatedOutput < a.estimatedOutput

instance : IsAntisymm Pool poolStrictRel :=
  ⟨fun _ _ h1 h2 => absurd (lt_trans h1 h2) (lt_irrefl _)⟩

/-- Pools that survive to ranking: concatenated adapter results, pair
filter (with the loose fallback), re-quote at the actual amount, then
discard pools with zero estimated output. -/
def survivors (req : SwapRequest) (est : Pool → ℤ → Option ℕ) (slip : ℚ)
    (amount : ℤ) (adapterResults : List (List Pool)) : List Pool :=
  ((filteredWithFallback req adapterResults.flatten).map
      (requote est slip amount)).filter (fun p => 0 < p.estimatedOutput)

/-- The ranked candidate list of `findPoolNode`: survivors sorted stably in
descending order of estimated output (JavaScript `Array.prototype.sort` is
stable), truncated to the top 5. -/
def aggregateRanked (req : SwapRequest) (est : Pool → ℤ → Option ℕ) (slip : ℚ)
    (amount : ℤ) (adapterResults : List (List Pool)) : List Pool :=
  ((survivors req est slip amount adapterResults).insertionSort poolDescRel).take 5

/-- Phases of the swap workflow state machine. -/
inductive SwapPhase where
  | preparing | findPool | executing | completed | error
  deriving DecidableEq, Repr

/-- Outcome record stored in `result` (both success and failure results
carry a `success` flag plus optional error and human-readable message). -/
structure SwapResultRec where
  success : Bool
  errorMsg : Option String := none
  message : Option String := none
  deriving DecidableEq, Repr

/-- The prepared swap transaction (`PreparedSwapTransaction`): resolved
integer swap amount, the asset decimals and the gas estimate. -/
structure PreparedSwapTransaction where
  swapAmount : ℤ
  decimals : ℕ
  gasEstimation : GasEstimation
  deriving DecidableEq, Repr

/-- The swap workflow state (`SwapState`). -/
structure SwapState where
  phase : SwapPhase
  request : Option SwapRequest := none
  preparedTransaction : Option PreparedSwapTransaction := none
  pools : List Pool := []
  selectedPool : Option Pool := none
  result : Option SwapResultRec := none
  error : Option String := none
  deriving DecidableEq, Repr

/-- Balance lookup result (`validateTokenBalance` raw material): raw amount
in smallest units and the optional metadata decimals. -/
structure TokenData where
  amount : ℕ
  decimals : Option ℕ := none
  deriving DecidableEq, Repr

inductive SwapAmountOutcome where
  | invalidAmount
  | insufficientBalance
  | ok (swapAmount : ℤ)
  deriving DecidableEq, Repr

/-- `SwapPreparationService.validateSwapAmount`: reject a `NaN` or
non-positive amount, scale by `10^decimals` with `Math.round`, and reject
a scaled amount exceeding the raw balance. -/
def validateSwapAmount (amountIn : Option ℚ) (balance : ℕ) (decimals : ℕ) :
    SwapAmountOutcome :=
  match amountIn with
  | none => .invalidAmount
  | some a =>
    if a ≤ 0 then .invalidAmount
    else
      let swapAmount := jsRound (a * 10 ^ decimals)
      if (balance : ℤ) < swapAmount then .insufficientBalance
      else .ok swapAmount

/-- The token address used for the input balance check in `prepareSwap`:
`tokenAddressIn` when truthy, else `faAddressIn`, with the `0xa` alias
rewritten to the canonical AptosCoin type. -/
def balanceTokenAddress (req : SwapRequest) : String :=
  let a := (jsOr req.tokenAddressIn (some req.faAddressIn)).getD ""
  if a = "0xa" then "0x1::aptos_coin::AptosCoin" else a

/-- Environment of `prepareSwapNode`: wallet availability, the balance
lookup result for the input token (`none` when the account query throws),
and the baseline gas simulation outcome. -/
structure PrepareSwapEnv where
  walletOk : Bool
  tokenData : Option TokenData
  networkSim : Option SimResult

/-- `SwapPreparationService.prepareSwap`: the throwing service body.
Failures are returned as `.error msg` (to be caught by the node wrapper). -/
def prepareSwap (s : SwapState) (env : PrepareSwapEnv) : Except String SwapState :=
  match s.request with
  | none => .error "No swap request found"
  | some req =>
    if ¬ env.walletOk then .error "Wallet lookup failed" else
    match env.tokenData with
    | none =>
      .error ("Input token not found or insufficient balance: " ++ balanceTokenAddress req)
    | some td =>
      if td.amount = 0 then
        .error ("Input token not found or insufficient balance: " ++ balanceTokenAddress req)
      else
        let decimals := td.decimals.getD 8
        match validateSwapAmount req.amountIn td.amount decimals with
        | .invalidAmount => .error "Invalid swap amount"
        | .insufficientBalance => .error "Insufficient balance."
        | .ok amt =>
          .ok { phase := .findPool,
                request := some req,
                preparedTransaction := some
                  { swapAmount := amt,
                    decimals := decimals,
                    gasEstimation := getNetworkGasEstimation env.networkSim } }

/-- `prepareSwapNode`: runs the preparation service and converts any thrown
error into a fresh state in phase `error` carrying only the message. -/
def prepareSwapNode (s : SwapState) (env : PrepareSwapEnv) : SwapState :=
  match prepareSwap s env with
  | .ok st => st
  | .error msg => { phase := .error, error := some msg }

/-- The resolved answer of a resumed pool selection, after the layered
scanning of config fields, messages and the interrupt response: either a
cancellation, or an acceptance whose payload carried a numeric
`selectedPoolIndex` (`none` when the payload had no numeric index). -/
inductive ResumeAnswer where
  | cancelled
  | accepted (selectedPoolIndex : Option ℤ)
  deriving DecidableEq, Repr

/-- Rendering of the selected index inside the validation error message
(JavaScript interpolates `undefined` for a missing index). -/
def answerIdxStr : ResumeAnswer → String
  | .cancelled => ""
  | .accepted none => "undefined"
  | .accepted (some i) => toString i

/-- The out-of-range validation message thrown by `findPoolNode`. -/
def invalidSelectionMsg (idx : String) (n : ℕ) : String :=
  "Invalid pool selection: selectedPoolIndex " ++ idx ++
    " is out of range (0-" ++ toString ((n : ℤ) - 1) ++ ")"

/-- Environment of `findPoolNode`: per-adapter pool results in query order,
the per-pool re-quoting outcomes, the resolved user answer, wallet
availability and the two gas simulation outcomes for the selected pool. -/
structure FindPoolEnv where
  adapterResults : List (List Pool)
  est : Pool → ℤ → Option ℕ
  answer : ResumeAnswer
  walletOk : Bool
  swapSim : Option SimResult
  networkSim : Option SimResult

/-- `findPoolNode`: aggregate and rank candidate pools, fail with a
no-pools error when none has a positive re-quoted output, then resolve the
user selection; cancellation and invalid indices terminate in phase
`error`, a valid index re-estimates gas for the selected pool and moves to
`executing`.  All thrown errors are caught and turned into phase `error`
on the incoming state. -/
def findPoolNode (s : SwapState) (env : FindPoolEnv) : SwapState :=
  match s.preparedTransaction, s.request with
  | some pt, some req =>
    let slip := req.slippage.getD (1/2)
    let sorted := aggregateRanked req env.est slip pt.swapAmount env.adapterResults
    if sorted.isEmpty then
      { s with phase := .error, error := some "No pools with valid estimated output found" }
    else
      match env.answer with
      | .cancelled =>
        { s with phase := .error, error := some "User cancelled pool selection" }
      | .accepted none =>
        { s with phase := .error,
                 error := some (invalidSelectionMsg "undefined" sorted.length) }
      | .accepted (some i) =>
        if i < 0 ∨ (sorted.length : ℤ) ≤ i then
          { s with phase := .error,
                   error := some (invalidSelectionMsg (toString i) sorted.length) }
        else
          match sorted.get? i.toNat with
          | none =>
            { s with phase := .error,
                     error := some "Invalid pool selection: selectedPool is null" }
          | some p =>
            if ¬ env.walletOk then
              { s with phase := .error, error := some "Wallet not found for gas estimation" }
            else
              { s with phase := .executing,
                       pools := sorted,
                       selectedPool := some p,
                       preparedTransaction := some
                         { pt with gasEstimation :=
                             estimateSwapGas [p] env.swapSim env.networkSim } }
  | _, _ =>
    { s with phase := .error, error := some "No prepared transaction found for pool search" }

/-- The asset type used for the execute-phase re-validation:
`tokenAddressIn` for PancakeSwap pools, `faAddressIn` otherwise. -/
def executeAssetType (sp : Pool) (req : SwapRequest) : Option String :=
  if sp.dexName = "PancakeSwap" then req.tokenAddressIn else some req.faAddressIn

/-- Environment of `executeSwapNode`: wallet availability, the balance
lookup for the traded asset, and the outcome of building, signing,
submitting and awaiting the trade (`none` when any of those throws). -/
structure ExecSwapEnv where
  walletOk : Bool
  tokenData : Option TokenData
  execOutcome : Option SwapResultRec

/-- The catch-all error conversion of `executeSwapNode`: phase `error`
with both the error message and a failure `result`. -/
def swapExecError (s : SwapState) (msg : String) : SwapState :=
  { s with phase := .error,
           error := some msg,
           result := some { success := false, errorMsg := some msg,
                            message := some ("Swap failed: " ++ msg) } }

/-- `executeSwapNode`: re-validate the balance (subtracting the capped max
gas reserve when the traded asset is the gas asset), build and submit the
selected trade, and either complete with a success result or convert any
thrown error into phase `error` with both `error` and a failure `result`
set. -/
def executeSwapNode (s : SwapState) (env : ExecSwapEnv) : SwapState :=
  match s.preparedTransaction, s.selectedPool, s.request with
  | some pt, some sp, some req =>
    if ¬ env.walletOk then
      swapExecError s "Wallet not found or private key not available"
    else
      let balance : ℕ := (env.tokenData.map TokenData.amount).getD 0
      let gasReserveInOctas : ℤ := ⌈pt.gasEstimation.maxGasCostInAPT * 100000000⌉
      let assetType := executeAssetType sp req
      let isGasAsset :=
        assetType = some "0xa" ∨ assetType = some "0x1::aptos_coin::AptosCoin"
      if isGasAsset ∧ (balance : ℤ) - gasReserveInOctas < pt.swapAmount then
        swapExecError s "Insufficient balance for swap."
      else if ¬ isGasAsset ∧ (balance : ℤ) < pt.swapAmount then
        swapExecError s "Insufficient token balance."
      else
        match env.execOutcome with
        | none => swapExecError s "Transaction submission failed"
        | some r => { s with phase := .completed, result := some r }
  | _, _, _ => swapExecError s "No prepared transaction or pool for execution"

/-- Phases of the transfer workflow state machine. -/
inductive TransferPhase where
  | preparing | confirming | executing | completed | error
  deriving DecidableEq, Repr

/-- The transfer request (`TransferRequest`).  `amountStr` is the raw
user-supplied string (only its emptiness matters to validation) and
`amountNum` the result of `parseFloat` on it (`none` = `NaN`). -/
structure TransferRequest where
  toAddress : String
  amountStr : String := ""
  amountNum : Option ℚ := none
  tokenAddress : Option String := none
  faAddress : Option String := none
  deriving DecidableEq, Repr

/-- The prepared transfer (`PreparedTransaction`).  `transferAmount` is the
unrounded scaled amount `amountNumber * 10 ** decimals` (`none` when the
parsed amount was `NaN`, which JavaScript silently propagates). -/
structure PreparedTransfer where
  transferAmount : Option ℚ
  decimals : ℕ
  assetType : String
  gasEstimation : GasEstimation
  deriving DecidableEq, Repr

/-- Transfer outcome record (`TransferResult`). -/
structure TransferResultRec where
  success : Bool
  errorMsg : Option String := none
  message : Option String := none
  deriving DecidableEq, Repr

/-- The transfer workflow state (`TransferState`). -/
structure TransferState where
  phase : TransferPhase
  request : TransferRequest
  preparedTransaction : Option PreparedTransfer := none
  result : Option TransferResultRec := none
  error : Option String := none
  deriving DecidableEq, Repr

/-- The asset type resolved by `prepareTransferNode`: `faAddress` when
truthy, else `tokenAddress`, else the native AptosCoin type. -/
def transferAssetType (req : TransferRequest) : String :=
  (jsOr req.faAddress (jsOr req.tokenAddress (some "0x1::aptos_coin::AptosCoin"))).getD ""

/-- JavaScript `a > b` where `a` may be `NaN`: every comparison with `NaN`
is false. -/
def jsGtOpt (a : Option ℚ) (b : ℚ) : Bool :=
  match a with
  | none => false
  | some x => b < x

/-- Environment of `prepareTransferNode`: authenticated user id (0 when the
context carries none), wallet availability, the balance lookup for the
asset, the registry decimals fallback (`getTokenDecimals`), and the gas
simulation outcome for the built transfer (`none` when building or
simulating throws). -/
structure PrepareTransferEnv where
  userId : ℕ
  walletOk : Bool
  tokenData : Option TokenData
  registryDecimals : String → ℕ
  simResult : Option SimResult

/-- The catch-all error conversion of `prepareTransferNode`: phase `error`
with both the error message and a failure result. -/
def transferPrepError (ts : TransferState) (msg : String) : TransferState :=
  { ts with phase := .error,
            error := some msg,
            result := some { success := false, errorMsg := some msg,
                             message := some "Transfer preparation failed" } }

/-- `prepareTransferNode`: resolve the asset type, validate the request and
balance, build the transfer and keep its gas simulation, then move to
`confirming`.  The insufficient-balance check compares the human-readable
`parseFloat(amount)` directly against the raw smallest-unit balance; the
scaled `transferAmount` is never compared.  The transfer gas estimate is
not clamped.  Any thrown error becomes phase `error` with both `error` and
a failure `result` set. -/
def prepareTransferNode (ts : TransferState) (env : PrepareTransferEnv) : TransferState :=
  let req := ts.request
  let assetType := transferAssetType req
  if env.userId = 0 then
    transferPrepError ts "User not authenticated - missing user identity in context"
  else if req.toAddress = "" then
    transferPrepError ts "Invalid toAddress provided"
  else if req.amountStr = "" then
    transferPrepError ts "Invalid amount provided"
  else if ¬ env.walletOk then
    transferPrepError ts "Wallet not found or private key not available"
  else
    match env.tokenData with
    | none => transferPrepError ts "Token not found or insufficient balance"
    | some td =>
      if td.amount = 0 then
        transferPrepError ts "Token not found or insufficient balance"
      else
        let decimals := td.decimals.getD (env.registryDecimals assetType)
        let balance := td.amount
        let transferAmount := req.amountNum.map (fun a => a * 10 ^ decimals)
        if jsGtOpt req.amountNum balance then
          transferPrepError ts "Insufficient balance."
        else
          match env.simResult with
          | none => transferPrepError ts "Transfer simulation failed"
          | some sim =>
            { ts with phase := .confirming,
                      preparedTransaction := some
                        { transferAmount := transferAmount,
                          decimals := decimals,
                          assetType := assetType,
                          gasEstimation :=
                            { totalGasCostInAPT :=
                                ((sim.gas_unit_price * sim.gas_used : ℕ) : ℚ) / 100000000,
                              maxGasCostInAPT :=
                                ((sim.gas_unit_price * sim.max_gas_amount : ℕ) : ℚ)
                                  / 100000000 } } }

/-- The user answer at the transfer confirmation interrupt: only an
explicit `accept` proceeds. -/
inductive ConfirmAnswer where
  | accept
  | other
  deriving DecidableEq, Repr

/-- `confirmTransferNode`: with a prepared transaction, an `accept` answer
moves to `executing`; any other answer terminates in phase `error` with a
cancellation `result` (and no `error` message).  A missing prepared
transaction throws and is caught into phase `error` with only the
message. -/
def confirmTransferNode (ts : TransferState) (answer : ConfirmAnswer) : TransferState :=
  match ts.preparedTransaction with
  | none =>
    { ts with phase := .error,
              error := some "No prepared transaction found for confirmation" }
  | some _ =>
    match answer with
    | .other =>
      { ts with phase := .error,
                result := some { success := false,
                                 errorMsg := some "User cancelled the transfer",
                                 message := some "Transfer cancelled by user" } }
    | .accept => { ts with phase := .executing }

/-- Environment of `executeTransferNode`: wallet availability and the
submission outcome (`none` when rebuilding, signing, submitting or waiting
throws). -/
structure ExecTransferEnv where
  walletOk : Bool
  execOutcome : Option TransferResultRec

/-- `executeTransferNode`: rebuild and submit the transfer; success moves
to `completed` with a result, any thrown error becomes phase `error` with
only the message. -/
def executeTransferNode (ts : TransferState) (env : ExecTransferEnv) : TransferState :=
  match ts.preparedTransaction with
  | none =>
    { ts with phase := .error,
              error := some "No prepared transaction found for execution" }
  | some _ =>
    if ts.request.toAddress = "" then
      { ts with phase := .error, error := some "To address is required" }
    else if ¬ env.walletOk then
      { ts with phase := .error,
                error := some "Wallet not found or private key not available" }
    else
      match env.execOutcome with
      | none => { ts with phase := .error, error := some "Transaction submission failed" }
      | some r => { ts with phase := .completed, result := some r }

/-- `PancakeSwapService.getAmountOut`: constant-product output with a fixed
0.25% proportional fee (`amount_in * 0.9975`); non-positive input or
reserves throw. -/
def getAmountOut (amount_in reserve_in reserve_out : ℤ) : Except String ℤ :=
  if amount_in ≤ 0 then .error "ERROR_INSUFFICIENT_INPUT_AMOUNT"
  else if reserve_in ≤ 0 ∨ reserve_out ≤ 0 then .error "ERROR_INSUFFICIENT_LIQUIDITY"
  else
    let amount_in_with_fee : ℚ := (amount_in : ℚ) * (9975/10000)
    let numerator : ℚ := amount_in_with_fee * (reserve_out : ℚ)
    let denominator : ℚ := (reserve_in : ℚ) * 1 + amount_in_with_fee
    .ok ⌊numerator / denominator⌋

/-- A cached pair reserve record (`reserve_in`/`reserve_out` already
oriented for the requested direction). -/
structure Reserves where
  reserve_in : ℤ
  reserve_out : ℤ
  deriving DecidableEq, Repr

/-- The routing shape held by a PancakeSwap pool when its output is
estimated, with each reserve lookup represented by its outcome (`none` =
the fetch threw). -/
inductive PancakeRoute where
  | direct (r : Option Reserves)
  | doublehop (r1 r2 : Option Reserves)
  | unknownRoute
  | noRoute (r : Option Reserves)
  deriving DecidableEq, Repr

/-- The body of `PancakeSwapService.estimateAmountOut` before its catch:
per-leg reserve fetches and constant-product evaluation, an unknown route
type falling back to `floor(amountIn * 0.9)` without error. -/
def pancakeRouteOutput (route : PancakeRoute) (amountIn : ℤ) : Except String ℤ :=
  match route with
  | .direct none => .error "reserve fetch failed"
  | .direct (some r) => getAmountOut amountIn r.reserve_in r.reserve_out
  | .doublehop r1 r2 =>
    match r1 with
    | none => .error "reserve fetch failed"
    | some a =>
      match getAmountOut amountIn a.reserve_in a.reserve_out with
      | .error e => .error e
      | .ok intermediateOutput =>
        match r2 with
        | none => .error "reserve fetch failed"
        | some b => getAmountOut intermediateOutput b.reserve_in b.reserve_out
  | .unknownRoute => .ok ⌊(amountIn : ℚ) * (9/10)⌋
  | .noRoute none => .error "reserve fetch failed"
  | .noRoute (some r) => getAmountOut amountIn r.reserve_in r.reserve_out

/-- An adapter estimation result (`AmountEstimation`). -/
structure AmountEstimation where
  estimatedOutput : ℤ
  minAmountOut : ℤ
  slippage : ℚ
  deriving DecidableEq, Repr

/-- `PancakeSwapService.estimateAmountOut`: evaluate the route and, on any
thrown error, return the deterministic fallback
`floor(amountIn * 0.9)` instead of propagating. -/
def pancakeEstimateAmountOut (route : PancakeRoute) (amountIn : ℤ) : AmountEstimation :=
  match pancakeRouteOutput route amountIn with
  | .ok estimatedOutput =>
    { estimatedOutput := estimatedOutput,
      minAmountOut := ⌊(estimatedOutput : ℚ) * (1 - (1/2) / 100)⌋,
      slippage := 1/2 }
  | .error _ =>
    let estimatedOutput : ℤ := ⌊(amountIn : ℚ) * (9/10)⌋
    { estimatedOutput := estimatedOutput,
      minAmountOut := ⌊(estimatedOutput : ℚ) * (1 - (1/2) / 100)⌋,
      slippage := 1/2 }

/-- A declared DEX catalog function. -/
structure DexFunction where
  functionType : String
  functionName : String
  isActive : Bool
  deriving DecidableEq, Repr

/-- DEX catalog metadata. -/
structure DexInfo where
  name : String
  methodAddress : String
  functions : List DexFunction
  deriving DecidableEq, Repr

/-- A raw pool entry as returned by the Hyperion on-chain view. -/
structure HypRawPool where
  token_a : String
  token_b : String
  fee_rate : ℕ
  poolRef : String
  deriving DecidableEq, Repr

/-- Mapping of a raw Hyperion pool plus its test-amount estimation into the
aggregator pool shape. -/
def hypMapPool (dexName : String) (raw : HypRawPool) (estOut : ℕ) : Pool :=
  { dexName := dexName,
    token_a := some raw.token_a,
    token_b := some raw.token_b,
    poolId := raw.poolRef,
    estimatedOutput := estOut,
    minAmountOut := ⌊(estOut : ℚ) * (1 - (1/2) / 100)⌋ }

/-- The pair filter inside `HyperionService.findPools`: `tokenIn` and
`tokenOut` are `faAddress || tokenAddress`, and the pool matches in either
orientation (strict equality, no case folding here). -/
def hypPairFilter (faAddressIn faAddressOut : String)
    (tokenAddressIn tokenAddressOut : Option String) (p : HypRawPool) : Bool :=
  let tokenIn := jsOr (some faAddressIn) tokenAddressIn
  let tokenOut := jsOr (some faAddressOut) tokenAddressOut
  (some p.token_a = tokenIn ∧ some p.token_b = tokenOut) ∨
    (some p.token_a = tokenOut ∧ some p.token_b = tokenIn)

/-- `HyperionService.findPools`: look up the declared find-pools function,
validate its `module::function` shape, run the on-chain view
(`viewResult`, `none` when the call throws), filter the returned pools to
the requested pair (both orientations), estimate each with a fixed test
amount (`est`, the caught estimation defaulting to zero handled by the
caller of this argument), drop zero-output pools, sort descending and keep
the top 5.  Every failure path returns the empty list; the function never
throws. -/
def hyperionFindPools (dex : DexInfo) (faAddressIn faAddressOut : String)
    (tokenAddressIn tokenAddressOut : Option String)
    (viewResult : Option (List HypRawPool)) (est : HypRawPool → ℕ) : List Pool :=
  match dex.functions.find? (fun f => f.functionType = "FIND_POOLS" && f.isActive) with
  | none => []
  | some fn =>
    if dex.methodAddress = "" ∨ fn.functionName = "" then []
    else if ¬ strContains fn.functionName "::" then []
    else
      match fn.functionName.splitOn "::" with
      | m :: f :: _ =>
        if m = "" ∨ f = "" then []
        else
          match viewResult with
          | none => []
          | some pools =>
            let filteredPools := pools.filter
              (hypPairFilter faAddressIn faAddressOut tokenAddressIn tokenAddressOut)
            let poolsWithEstimation := filteredPools.map
              (fun p => hypMapPool dex.name p (est p))
            ((poolsWithEstimation.filter
                (fun p => 0 < p.estimatedOutput)).insertionSort poolDescRel).take 5
      | _ => []

/-- Example swap request: two plain fungible-asset addresses. -/
def exSwapRequest : SwapRequest :=
  { faAddressIn := "0xaaa", faAddressOut := "0xbbb", amountIn := some 1 }

/-- Example Hyperion pool for the requested pair. -/
def exPool : Pool :=
  { dexName := "Hyperion", token_a := some "0xaaa", token_b := some "0xbbb" }

/-- Example Cellana pool for the same pair. -/
def exPoolCel : Pool :=
  { dexName := "Cellana", token_a := some "0xaaa", token_b := some "0xbbb" }

/-- Example estimator: every pool re-quotes to 1000000. -/
def exEstConst : Pool → ℤ → Option ℕ := fun _ _ => some 1000000

/-- Example estimator with pairwise-distinct outputs per adapter. -/
def exEstDistinct : Pool → ℤ → Option ℕ :=
  fun p _ => if p.dexName = "Hyperion" then some 200 else some 100

/-- Example prepared swap transaction. -/
def exPrepared : PreparedSwapTransaction :=
  { swapAmount := 100, decimals := 8,
    gasEstimation := { totalGasCostInAPT := 5/1000, maxGasCostInAPT := 1/100 } }

/-- Example state entering `findPool`. -/
def exFindState : SwapState :=
  { phase := .findPool, request := some exSwapRequest,
    preparedTransaction := some exPrepared }

/-- Example resumed environment carrying the out-of-range index 7. -/
def exFindEnvBadIdx : FindPoolEnv :=
  { adapterResults := [[exPool], [exPoolCel]], est := exEstConst,
    answer := .accepted (some 7), walletOk := true,
    swapSim := none, networkSim := none }

/-- Example state entering `executing`. -/
def exExecState : SwapState :=
  { phase := .executing, request := some exSwapRequest,
    preparedTransaction := some exPrepared, selectedPool := some exPool }

/-- Example execution environment whose submission throws. -/
def exExecEnvFail : ExecSwapEnv :=
  { walletOk := true, tokenData := some { amount := 1000000000 }, execOutcome := none }

/-- Example preparation environment with a healthy balance. -/
def exPrepEnv : PrepareSwapEnv :=
  { walletOk := true, tokenData := some { amount := 1000000000, decimals := some 8 },
    networkSim := none }

/-- Example state entering swap preparation. -/
def exPrepState : SwapState :=
  { phase := .preparing, request := some exSwapRequest }

/-- Example transfer request: 2 tokens, parsed amount 2. -/
def exTransferRequest : TransferRequest :=
  { toAddress := "0xdead", amountStr := "2", amountNum := some 2 }

/-- Example transfer state entering preparation. -/
def exTransferState : TransferState :=
  { phase := .preparing, request := exTransferRequest }

/-- Example transfer environment: raw balance 100 smallest units, 8
decimals, and a simulation reporting price 100, used 100000, max
2000000. -/
def exTransferEnv : PrepareTransferEnv :=
  { userId := 1, walletOk := true,
    tokenData := some { amount := 100, decimals := some 8 },
    registryDecimals := fun _ => 0,
    simResult := some { gas_unit_price := 100, gas_used := 100000,
                        max_gas_amount := 2000000 } }

/-- Example DEX catalog entry with no declared find-pools function. -/
def exDexNoFn : DexInfo :=
  { name := "Hyperion", methodAddress := "0xabc", functions := [] }

/-- The terminal-phase exclusivity property claimed by the spec for the
swap workflow: a completed state has a result and no error, an error state
has an error and no result. -/
def swapTerminalExclusive (s : SwapState) : Prop :=
  (s.phase = .completed → s.result.isSome = true ∧ s.error = none) ∧
  (s.phase = .error → s.error.isSome = true ∧ s.result = none)

/-- The same exclusivity property for the transfer workflow. -/
def transferTerminalExclusive (ts : TransferState) : Prop :=
  (ts.phase = .completed → ts.result.isSome = true ∧ ts.error = none) ∧
  (ts.phase = .error → ts.error.isSome = true ∧ ts.result = none)

theorem getNetworkGasEstimation_caps (sim : Option SimResult) :
    gasCapsOK (getNetworkGasEstimation sim) := by
  cases sim with
  | none => constructor <;> norm_num [getNetworkGasEstimation, gasCapsOK]
  | some s =>
    constructor
    · exact min_le_right _ _
    · exact min_le_right _ _

theorem estimateSwapGas_caps (pools : List Pool) (swapSim networkSim : Option SimResult) :
    gasCapsOK (estimateSwapGas pools swapSim networkSim) := by
  cases pools with
  | nil => exact getNetworkGasEstimation_caps networkSim
  | cons p ps =>
    cases swapSim with
    | none => exact getNetworkGasEstimation_caps networkSim
    | some s =>
      constructor
      · exact min_le_right _ _
      · exact min_le_right _ _

/-- C1 counterexample: the transfer workflow preparation estimate is not
clamped.  With a simulator reporting unit price 100, used gas 100000 and
max gas 2000000, the returned estimate is total 0.1 APT and max 2 APT,
exceeding both claimed caps (0.05 / 0.1). -/
theorem gas_caps_transfer_counterexample :
    ((prepareTransferNode exTransferState exTransferEnv).preparedTransaction.map
        (fun pt => pt.gasEstimation)) =
      some { totalGasCostInAPT := 1/10, maxGasCostInAPT := 2 } ∧
    ¬ gasCapsOK { totalGasCostInAPT := 1/10, maxGasCostInAPT := 2 } := by
  constructor
  · simp only [prepareTransferNode, exTransferState, exTransferEnv, exTransferRequest,
      transferAssetType, jsGtOpt, transferPrepError, jsOr]
    norm_num
    rw [if_neg (by decide), if_neg (by decide)]
    exact ⟨_, rfl, rfl⟩
  · intro h
    have := h.2
    norm_num at this

/-- C1 amended: both swap-workflow gas estimates (the baseline network
estimation and the per-pool re-estimation) are clamped to total at most
0.05 APT and max at most 0.1 APT for every simulator output; the transfer
preparation estimate, by contrast, is returned unclamped as exactly
price*used/10^8 and price*maxGas/10^8. -/
theorem gas_caps_amended :
    (∀ sim, gasCapsOK (getNetworkGasEstimation sim)) ∧
    (∀ pools swapSim networkSim, gasCapsOK (estimateSwapGas pools swapSim networkSim)) ∧
    (∀ (ts : TransferState) (env : PrepareTransferEnv) (td : TokenData) (sim : SimResult),
      env.userId ≠ 0 → ts.request.toAddress ≠ "" → ts.request.amountStr ≠ "" →
      env.walletOk = true → env.tokenData = some td → td.amount ≠ 0 →
      jsGtOpt ts.request.amountNum td.amount = false → env.simResult = some sim →
      ((prepareTransferNode ts env).preparedTransaction.map (fun pt => pt.gasEstimation)) =
        some { totalGasCostInAPT := ((sim.gas_unit_price * sim.gas_used : ℕ) : ℚ) / 100000000,
               maxGasCostInAPT := ((sim.gas_unit_price * sim.max_gas_amount : ℕ) : ℚ) / 100000000 }) := by
  refine ⟨getNetworkGasEstimation_caps, estimateSwapGas_caps, ?_⟩
  intro ts env td sim h1 h2 h3 hw htd hnz hjs hsim
  simp only [prepareTransferNode, transferPrepError]
  rw [if_neg h1, if_neg h2, if_neg h3, if_neg (by simp [hw]), htd]
  simp only [hnz, if_false, hjs, hsim]
  simp

/-- Witness for the amended C1 theorem at a concrete input: the caps hold
for a concrete swap simulation, and a concrete transfer preparation
returns the unclamped estimate 0.1 / 2 APT. -/
theorem gas_caps_amended_witness :
    gasCapsOK (getNetworkGasEstimation
      (some { gas_unit_price := 100, gas_used := 100000, max_gas_amount := 2000000 })) ∧
    ((prepareTransferNode exTransferState exTransferEnv).preparedTransaction.map
        (fun pt => pt.gasEstimation)) =
      some { totalGasCostInAPT := ((100 * 100000 : ℕ) : ℚ) / 100000000,
             maxGasCostInAPT := ((100 * 2000000 : ℕ) : ℚ) / 100000000 } := by
  constructor
  · exact gas_caps_amended.1 _
  · exact gas_caps_amended.2.2 exTransferState exTransferEnv
      { amount := 100, decimals := some 8 }
      { gas_unit_price := 100, gas_used := 100000, max_gas_amount := 2000000 }
      (by decide) (by decide) (by decide) rfl rfl (by decide) (by decide) rfl

theorem prepareSwap_ok_phase (s : SwapState) (env : PrepareSwapEnv) (st : SwapState)
    (h : prepareSwap s env = .ok st) : st.phase = .findPool := by
  unfold prepareSwap at h
  cases hreq : s.request with
  | none => simp [hreq] at h
  | some req =>
    simp only [hreq] at h
    by_cases hw : env.walletOk
    · rw [if_neg (by simp [hw])] at h
      cases htd : env.tokenData with
      | none => simp [htd] at h
      | some td =>
        simp only [htd] at h
        by_cases hz : td.amount = 0
        · simp [hz] at h
        · rw [if_neg hz] at h
          cases hv : validateSwapAmount req.amountIn td.amount (td.decimals.getD 8) with
          | invalidAmount => simp [hv] at h
          | insufficientBalance => simp [hv] at h
          | ok amt =>
            simp only [hv] at h
            injection h with h2
            rw [← h2]
    · rw [if_pos (by simp [hw])] at h
      cases h

theorem executeSwapNode_cases (s : SwapState) (env : ExecSwapEnv) :
    (∃ msg, executeSwapNode s env = swapExecError s msg) ∨
    (∃ r, env.execOutcome = some r ∧
      executeSwapNode s env = { s with phase := .completed, result := some r }) := by
  unfold executeSwapNode
  cases hpt : s.preparedTransaction with
  | none => exact .inl ⟨_, rfl⟩
  | some pt =>
    cases hsp : s.selectedPool with
    | none => exact .inl ⟨_, rfl⟩
    | some sp =>
      cases hreq : s.request with
      | none => exact .inl ⟨_, rfl⟩
      | some req =>
        dsimp only
        by_cases hw : env.walletOk
        · rw [if_neg (by simp [hw])]
          split_ifs with hA hB
          · exact .inl ⟨_, rfl⟩
          · exact .inl ⟨_, rfl⟩
          · cases hx : env.execOutcome with
            | none => exact .inl ⟨_, rfl⟩
            | some r => exact .inr ⟨r, rfl, rfl⟩
        · rw [if_pos (by simp [hw])]
          exact .inl ⟨_, rfl⟩

theorem findPoolNode_cases (s : SwapState) (env : FindPoolEnv) :
    (∃ msg, findPoolNode s env = { s with phase := .error, error := some msg }) ∨
    (∃ p sorted pt, findPoolNode s env =
      { s with phase := .executing, pools := sorted, selectedPool := some p,
               preparedTransaction := some pt }) := by
  unfold findPoolNode
  cases hpt : s.preparedTransaction with
  | none => exact .inl ⟨_, rfl⟩
  | some pt =>
    cases hreq : s.request with
    | none => exact .inl ⟨_, rfl⟩
    | some req =>
      dsimp only
      by_cases he : (aggregateRanked req env.est (req.slippage.getD (1/2))
          pt.swapAmount env.adapterResults).isEmpty
      · rw [if_pos he]
        exact .inl ⟨_, rfl⟩
      · rw [if_neg he]
        cases hans : env.answer with
        | cancelled => exact .inl ⟨_, rfl⟩
        | accepted oi =>
          cases oi with
          | none => exact .inl ⟨_, rfl⟩
          | some i =>
            dsimp only
            by_cases hrange : i < 0 ∨
              (((aggregateRanked req env.est (req.slippage.getD (1/2))
                pt.swapAmount env.adapterResults).length : ℤ) ≤ i)
            · rw [if_pos hrange]
              exact .inl ⟨_, rfl⟩
            · rw [if_neg hrange]
              cases hg : (aggregateRanked req env.est (req.slippage.getD (1/2))
                  pt.swapAmount env.adapterResults).get? i.toNat with
              | none => exact .inl ⟨_, rfl⟩
              | some p =>
                dsimp only
                by_cases hw : env.walletOk
                · rw [if_neg (by simp [hw])]
                  exact .inr ⟨p, _, _, rfl⟩
                · rw [if_pos (by simp [hw])]
                  exact .inl ⟨_, rfl⟩

theorem prepareTransferNode_cases (ts : TransferState) (env : PrepareTransferEnv) :
    (∃ msg, prepareTransferNode ts env = transferPrepError ts msg) ∨
    (∃ pt, prepareTransferNode ts env =
      { ts with phase := .confirming, preparedTransaction := some pt }) := by
  unfold prepareTransferNode
  dsimp only
  by_cases h1 : env.userId = 0
  · rw [if_pos h1]; exact .inl ⟨_, rfl⟩
  rw [if_neg h1]
  by_cases h2 : ts.request.toAddress = ""
  · rw [if_pos h2]; exact .inl ⟨_, rfl⟩
  rw [if_neg h2]
  by_cases h3 : ts.request.amountStr = ""
  · rw [if_pos h3]; exact .inl ⟨_, rfl⟩
  rw [if_neg h3]
  by_cases h4 : env.walletOk
  case neg => rw [if_pos (by simp [h4])]; exact .inl ⟨_, rfl⟩
  rw [if_neg (by simp [h4])]
  cases htd : env.tokenData with
    | none => exact .inl ⟨_, rfl⟩
    | some td =>
      dsimp only
      by_cases hz : td.amount = 0
      · rw [if_pos hz]
        exact .inl ⟨_, rfl⟩
      · rw [if_neg hz]
        by_cases hjs : jsGtOpt ts.request.amountNum td.amount
        · rw [if_pos hjs]
          exact .inl ⟨_, rfl⟩
        · rw [if_neg hjs]
          cases hsim : env.simResult with
          | none => exact .inl ⟨_, rfl⟩
          | some sim => exact .inr ⟨_, by dsimp only⟩

theorem executeSwapNode_fail_eval :
    executeSwapNode exExecState exExecEnvFail =
      swapExecError exExecState "Transaction submission failed" := by
  simp only [executeSwapNode, exExecState, exExecEnvFail, exSwapRequest, exPool, exPrepared,
    executeAssetType]
  norm_num

/-- C2 counterexample: when swap execution fails (here: transaction
submission throws), the resulting terminal state is in phase `error` with
BOTH the `error` message and a failure `result` set, contradicting the
claimed exclusivity. -/
theorem terminal_exclusive_counterexample_C2 :
    (executeSwapNode exExecState exExecEnvFail).phase = .error ∧
    ((executeSwapNode exExecState exExecEnvFail).error).isSome = true ∧
    ((executeSwapNode exExecState exExecEnvFail).result).isSome = true ∧
    ¬ swapTerminalExclusive (executeSwapNode exExecState exExecEnvFail) := by
  rw [executeSwapNode_fail_eval]
  refine ⟨rfl, rfl, rfl, ?_⟩
  intro hx
  have := (hx.2 rfl).2
  simp [swapExecError] at this

/-- C2 amended: at every terminal phase at least one of `result` and
`error` is set, but not exclusively: a completed state always carries a
result (and keeps the incoming error field, `none` on every reachable
path); swap execution failures and transfer preparation failures set both
the error message and a failure result; transfer confirmation
cancellation sets only a failure result; the remaining error paths set
only the error message. -/
theorem terminal_result_error_amended :
    (∀ (s : SwapState) (env : ExecSwapEnv),
      ((executeSwapNode s env).phase = .completed →
        ((executeSwapNode s env).result).isSome = true ∧
        (executeSwapNode s env).error = s.error) ∧
      ((executeSwapNode s env).phase = .error →
        ((executeSwapNode s env).error).isSome = true ∧
        ((executeSwapNode s env).result).isSome = true)) ∧
    (∀ (s : SwapState) (env : PrepareSwapEnv),
      (prepareSwapNode s env).phase = .error →
        ((prepareSwapNode s env).error).isSome = true) ∧
    (∀ (s : SwapState) (env : FindPoolEnv),
      (findPoolNode s env).phase = .error →
        ((findPoolNode s env).error).isSome = true) ∧
    (∀ (ts : TransferState) (env : PrepareTransferEnv),
      (prepareTransferNode ts env).phase = .error →
        ((prepareTransferNode ts env).error).isSome = true ∧
        ((prepareTransferNode ts env).result).isSome = true) ∧
    (∀ (ts : TransferState) (ans : ConfirmAnswer),
      (confirmTransferNode ts ans).phase = .error →
        ((confirmTransferNode ts ans).error).isSome = true ∨
        ((confirmTransferNode ts ans).result).isSome = true) ∧
    (∀ (ts : TransferState) (env : ExecTransferEnv),
      ((executeTransferNode ts env).phase = .completed →
        ((executeTransferNode ts env).result).isSome = true) ∧
      ((executeTransferNode ts env).phase = .error →
        ((executeTransferNode ts env).error).isSome = true)) := by
  refine ⟨?_, ?_, ?_, ?_, ?_, ?_⟩
  · intro s env
    rcases executeSwapNode_cases s env with ⟨msg, he⟩ | ⟨r, hro, he⟩ <;> rw [he]
    · exact ⟨fun h => by simp [swapExecError] at h, fun _ => ⟨rfl, rfl⟩⟩
    · exact ⟨fun _ => ⟨rfl, rfl⟩, fun h => by simp at h⟩
  · intro s env h
    unfold prepareSwapNode at h ⊢
    revert h
    cases hps : prepareSwap s env with
    | ok st =>
      intro h
      dsimp only at h
      rw [prepareSwap_ok_phase s env st hps] at h
      simp at h
    | error msg => intro h; rfl
  · intro s env h
    rcases findPoolNode_cases s env with ⟨msg, he⟩ | ⟨p, sorted, pt, he⟩ <;> rw [he]
    · rfl
    · rw [he] at h; simp at h
  · intro ts env
    rcases prepareTransferNode_cases ts env with ⟨msg, he⟩ | ⟨pt, he⟩ <;> rw [he]
    · exact fun _ => ⟨rfl, rfl⟩
    · intro h; simp at h
  · intro ts ans
    unfold confirmTransferNode
    repeat' split
    all_goals intro h
    · exact Or.inl rfl
    · exact Or.inr rfl
    · simp at h
  · intro ts env
    unfold executeTransferNode
    repeat' split
    all_goals constructor <;> intro h <;> simp_all

/-- Witness for the amended C2 theorem: on the concrete failed execution,
the terminal error state indeed carries both fields. -/
theorem terminal_result_error_amended_witness :
    ((executeSwapNode exExecState exExecEnvFail).error).isSome = true ∧
    ((executeSwapNode exExecState exExecEnvFail).result).isSome = true := by
  exact (terminal_result_error_amended.1 exExecState exExecEnvFail).2
    (by rw [executeSwapNode_fail_eval]; rfl)

/-- C3: every pool carrying an estimated output after the aggregator's
re-quoting pass has
`minAmountOut = floor(estimatedOutput * (1 - slippage/100))`, where the
slippage is the request's tolerance with default 0.5; pools whose
estimation threw carry output 0 and `minAmountOut = 0 = floor(0 * _)`. -/
theorem requote_minAmountOut_C3 (est : Pool → ℤ → Option ℕ) (slipOpt : Option ℚ)
    (amount : ℤ) (pools : List Pool) (p : Pool)
    (hp : p ∈ pools.map (requote est (slipOpt.getD (1/2)) amount)) :
    p.minAmountOut = ⌊(p.estimatedOutput : ℚ) * (1 - (slipOpt.getD (1/2)) / 100)⌋ := by
  rcases List.mem_map.1 hp with ⟨q, _, hq⟩
  subst hq
  unfold requote
  cases est q amount with
  | some o => simp
  | none => simp

/-- Witness for C3 at the spec's example: estimated output 1000000 with
the default slippage 0.5 gives `minAmountOut = 995000`. -/
theorem requote_minAmountOut_C3_witness :
    (requote exEstConst ((none : Option ℚ).getD (1/2)) 100 exPool).minAmountOut = 995000 ∧
    (requote exEstConst ((none : Option ℚ).getD (1/2)) 100 exPool).estimatedOutput = 1000000 := by
  have h := requote_minAmountOut_C3 exEstConst none 100 [exPool]
    (requote exEstConst ((none : Option ℚ).getD (1/2)) 100 exPool) (by simp)
  constructor
  · rw [h]
    norm_num [requote, exEstConst]
  · rfl

/-- Example find-pool environment whose adapters return no pools. -/
def exFindEnvEmpty : FindPoolEnv :=
  { adapterResults := [], est := exEstConst, answer := .accepted (some 0),
    walletOk := true, swapSim := none, networkSim := none }

/-- C4: every ranked candidate has a positive re-quoted output and is the
re-quote, at the actual prepared swap amount, of a pool that survived the
token-pair filter; the ranked list is sorted in descending estimated
output and has length at most 5; and when no candidate remains,
`findPoolNode` terminates in phase `error` with the no-pools message
instead of crashing. -/
theorem aggregation_pipeline_C4 (req : SwapRequest) (est : Pool → ℤ → Option ℕ)
    (slip : ℚ) (amount : ℤ) (ars : List (List Pool)) :
    (∀ p ∈ aggregateRanked req est slip amount ars,
      0 < p.estimatedOutput ∧
      ∃ q ∈ filteredWithFallback req ars.flatten, p = requote est slip amount q) ∧
    (aggregateRanked req est slip amount ars).Sorted poolDescRel ∧
    (aggregateRanked req est slip amount ars).length ≤ 5 ∧
    (∀ (s : SwapState) (env : FindPoolEnv) (pt : PreparedSwapTransaction)
        (req2 : SwapRequest),
      s.preparedTransaction = some pt → s.request = some req2 →
      aggregateRanked req2 env.est (req2.slippage.getD (1/2)) pt.swapAmount
        env.adapterResults = [] →
      findPoolNode s env =
        { s with phase := .error,
                 error := some "No pools with valid estimated output found" }) := by
  refine ⟨?_, ?_, ?_, ?_⟩
  · intro p hp
    unfold aggregateRanked at hp
    have hp2 := List.mem_of_mem_take hp
    have hp3 : p ∈ survivors req est slip amount ars :=
      (List.perm_insertionSort poolDescRel _).mem_iff.mp hp2
    unfold survivors at hp3
    rcases List.mem_filter.1 hp3 with ⟨hmap, hpos⟩
    refine ⟨by simpa using hpos, ?_⟩
    rcases List.mem_map.1 hmap with ⟨q, hq1, hq2⟩
    exact ⟨q, hq1, hq2.symm⟩
  · exact (List.sorted_insertionSort poolDescRel _).sublist (List.take_sublist 5 _)
  · exact List.length_take_le 5 _
  · intro s env pt req2 hpt hreq hagg
    simp only [findPoolNode, hpt, hreq, hagg, List.isEmpty_nil, if_true]

/-- Witness for C4: with no adapter results the node reaches the no-pools
error state, and the ranked list of a concrete two-adapter aggregation is
sorted with length at most 5. -/
theorem aggregation_pipeline_C4_witness :
    findPoolNode exFindState exFindEnvEmpty =
      { exFindState with phase := .error,
                         error := some "No pools with valid estimated output found" } ∧
    (aggregateRanked exSwapRequest exEstConst (1/2) 100 [[exPool], [exPoolCel]]).Sorted
      poolDescRel ∧
    (aggregateRanked exSwapRequest exEstConst (1/2) 100
      [[exPool], [exPoolCel]]).length ≤ 5 := by
  refine ⟨?_, (aggregation_pipeline_C4 exSwapRequest exEstConst (1/2) 100
    [[exPool], [exPoolCel]]).2.1,
    (aggregation_pipeline_C4 exSwapRequest exEstConst (1/2) 100
      [[exPool], [exPoolCel]]).2.2.1⟩
  exact (aggregation_pipeline_C4 exSwapRequest exEstConst (1/2) 0
    [[exPool], [exPoolCel]]).2.2.2 exFindState exFindEnvEmpty exPrepared exSwapRequest
    rfl rfl rfl

/-- C5: on a resumed pool selection whose answer carries no numeric index
or an index outside `0 .. candidates-1`, `findPoolNode` terminates in
phase `error` with the out-of-range validation message and leaves the
selected pool untouched (no default pool is ever chosen). -/
theorem invalid_selection_C5 (s : SwapState) (env : FindPoolEnv)
    (pt : PreparedSwapTransaction) (req : SwapRequest)
    (hpt : s.preparedTransaction = some pt) (hreq : s.request = some req)
    (hne : (aggregateRanked req env.est (req.slippage.getD (1/2)) pt.swapAmount
      env.adapterResults).isEmpty = false)
    (hbad : env.answer = .accepted none ∨
      ∃ i, env.answer = .accepted (some i) ∧
        (i < 0 ∨ ((aggregateRanked req env.est (req.slippage.getD (1/2)) pt.swapAmount
          env.adapterResults).length : ℤ) ≤ i)) :
    findPoolNode s env =
      { s with phase := .error,
               error := some (invalidSelectionMsg (answerIdxStr env.answer)
                 (aggregateRanked req env.est (req.slippage.getD (1/2)) pt.swapAmount
                   env.adapterResults).length) } ∧
    (findPoolNode s env).selectedPool = s.selectedPool := by
  have hmain : findPoolNode s env =
      { s with phase := .error,
               error := some (invalidSelectionMsg (answerIdxStr env.answer)
                 (aggregateRanked req env.est (req.slippage.getD (1/2)) pt.swapAmount
                   env.adapterResults).length) } := by
    unfold findPoolNode
    rcases hbad with hnone | ⟨i, hi, hrange⟩
    · simp only [hpt, hreq, hne, Bool.false_eq_true, if_false, hnone, answerIdxStr]
    · simp only [hpt, hreq, hne, Bool.false_eq_true, if_false, hi, answerIdxStr]
      rw [if_pos hrange]
  exact ⟨hmain, by rw [hmain]⟩

/-- Witness for C5: selecting index 7 when only 2 candidates are ranked
terminates in phase `error` without selecting any pool. -/
theorem invalid_selection_C5_witness :
    (findPoolNode exFindState exFindEnvBadIdx).phase = .error ∧
    (findPoolNode exFindState exFindEnvBadIdx).selectedPool = none := by
  have h := invalid_selection_C5 exFindState exFindEnvBadIdx exPrepared exSwapRequest
    rfl rfl (by decide)
    (Or.inr ⟨7, rfl, Or.inr (by decide)⟩)
  exact ⟨by rw [h.1], h.2⟩

theorem prepareSwapNode_eval (s : SwapState) (env : PrepareSwapEnv) (req : SwapRequest)
    (td : TokenData) (hreq : s.request = some req) (hw : env.walletOk = true)
    (htd : env.tokenData = some td) (hnz : td.amount ≠ 0) :
    prepareSwapNode s env =
      match validateSwapAmount req.amountIn td.amount (td.decimals.getD 8) with
      | .invalidAmount => { phase := .error, error := some "Invalid swap amount" }
      | .insufficientBalance => { phase := .error, error := some "Insufficient balance." }
      | .ok amt =>
        { phase := .findPool, request := some req,
          preparedTransaction := some
            { swapAmount := amt, decimals := td.decimals.getD 8,
              gasEstimation := getNetworkGasEstimation env.networkSim } } := by
  unfold prepareSwapNode prepareSwap
  simp only [hreq]
  rw [if_neg (by simp [hw])]
  simp only [htd]
  rw [if_neg hnz]
  cases hv : validateSwapAmount req.amountIn td.amount (td.decimals.getD 8) with
  | invalidAmount => simp only [hv]
  | insufficientBalance => simp only [hv]
  | ok amt => simp only [hv]

/-- C6: with a found balance, the swap preparation scales the parsed
amount by `Math.round(amountIn * 10^decimals)`; when that integer does not
exceed the raw balance the node reaches phase `findPool` carrying it as
`swapAmount`, when it exceeds the balance the node errors with the
insufficient-balance message, and a non-positive or `NaN` amount errors
with the invalid-amount message. -/
theorem prepare_swap_C6 (s : SwapState) (env : PrepareSwapEnv) (req : SwapRequest)
    (td : TokenData) (a : ℚ)
    (hreq : s.request = some req) (hw : env.walletOk = true)
    (htd : env.tokenData = some td) (hnz : td.amount ≠ 0) :
    (req.amountIn = some a → 0 < a →
      jsRound (a * 10 ^ (td.decimals.getD 8)) ≤ (td.amount : ℤ) →
      prepareSwapNode s env =
        { phase := .findPool, request := some req,
          preparedTransaction := some
            { swapAmount := jsRound (a * 10 ^ (td.decimals.getD 8)),
              decimals := td.decimals.getD 8,
              gasEstimation := getNetworkGasEstimation env.networkSim } }) ∧
    (req.amountIn = some a → 0 < a →
      (td.amount : ℤ) < jsRound (a * 10 ^ (td.decimals.getD 8)) →
      prepareSwapNode s env =
        { phase := .error, error := some "Insufficient balance." }) ∧
    (req.amountIn = some a → a ≤ 0 →
      prepareSwapNode s env =
        { phase := .error, error := some "Invalid swap amount" }) ∧
    (req.amountIn = none →
      prepareSwapNode s env =
        { phase := .error, error := some "Invalid swap amount" }) := by
  refine ⟨?_, ?_, ?_, ?_⟩
  · intro ha hpos hle
    rw [prepareSwapNode_eval s env req td hreq hw htd hnz]
    unfold validateSwapAmount
    simp only [ha]
    rw [if_neg (not_le.mpr hpos), if_neg (not_lt.mpr hle)]
  · intro ha hpos hgt
    rw [prepareSwapNode_eval s env req td hreq hw htd hnz]
    unfold validateSwapAmount
    simp only [ha]
    rw [if_neg (not_le.mpr hpos), if_pos hgt]
  · intro ha hneg
    rw [prepareSwapNode_eval s env req td hreq hw htd hnz]
    unfold validateSwapAmount
    simp only [ha]
    rw [if_pos hneg]
  · intro ha
    rw [prepareSwapNode_eval s env req td hreq hw htd hnz]
    unfold validateSwapAmount
    simp only [ha]

/-- Witness for C6: amount 1 with 8 decimals against a balance of 10^9
smallest units prepares `swapAmount = 100000000` and reaches `findPool`. -/
theorem prepare_swap_C6_witness :
    (prepareSwapNode exPrepState exPrepEnv).phase = .findPool ∧
    ((prepareSwapNode exPrepState exPrepEnv).preparedTransaction.map
      (fun pt => pt.swapAmount)) = some 100000000 := by
  have hjr : jsRound ((1 : ℚ) * 10 ^ 8) = 100000000 := by
    unfold jsRound
    rw [show ((1 : ℚ) * 10 ^ 8 + 1/2) = 100000000 + 1/2 by norm_num]
    refine Int.floor_eq_iff.mpr ⟨by norm_num, by norm_num⟩
  have hd : (({ amount := 1000000000, decimals := some 8 } : TokenData).decimals.getD 8) = 8 :=
    rfl
  have h := (prepare_swap_C6 exPrepState exPrepEnv exSwapRequest
    { amount := 1000000000, decimals := some 8 } 1 rfl rfl rfl (by decide)).1
    rfl (by norm_num) (by rw [hd, hjr]; norm_num)
  rw [hd] at h
  rw [h]
  exact ⟨rfl, by simp only [Option.map]; rw [hjr]⟩

/-- C7: for positive input and reserves the path-routed adapter's
single-hop output is
`floor(amountIn*(1-0.0025)*reserveOut / (reserveIn + amountIn*(1-0.0025)))`,
the constant-product formula with a fixed 0.25% proportional fee; a
non-positive input raises `ERROR_INSUFFICIENT_INPUT_AMOUNT` and a
non-positive reserve raises `ERROR_INSUFFICIENT_LIQUIDITY` instead of
returning a value. -/
theorem pancake_getAmountOut_C7 (aIn rIn rOut : ℤ) :
    (0 < aIn → 0 < rIn → 0 < rOut →
      getAmountOut aIn rIn rOut =
        .ok ⌊((aIn : ℚ) * (1 - 25/10000) * (rOut : ℚ)) /
          ((rIn : ℚ) + (aIn : ℚ) * (1 - 25/10000))⌋) ∧
    (aIn ≤ 0 → getAmountOut aIn rIn rOut = .error "ERROR_INSUFFICIENT_INPUT_AMOUNT") ∧
    (0 < aIn → (rIn ≤ 0 ∨ rOut ≤ 0) →
      getAmountOut aIn rIn rOut = .error "ERROR_INSUFFICIENT_LIQUIDITY") := by
  refine ⟨?_, ?_, ?_⟩
  · intro ha hri hro
    unfold getAmountOut
    rw [if_neg (not_le.mpr ha), if_neg (by push_neg; exact ⟨hri, hro⟩)]
    have h9975 : ((9975 : ℚ)/10000) = 1 - 25/10000 := by norm_num
    rw [h9975]
    ring_nf
  · intro ha
    unfold getAmountOut
    rw [if_pos ha]
  · intro ha hr
    unfold getAmountOut
    rw [if_neg (not_le.mpr ha), if_pos hr]

/-- Witness for C7: input 1000 with reserves 1000000 / 2000000 returns
`ok 1993`, and input 0 raises the input error. -/
theorem pancake_getAmountOut_C7_witness :
    getAmountOut 1000 1000000 2000000 = .ok 1993 ∧
    getAmountOut 0 1000000 2000000 = .error "ERROR_INSUFFICIENT_INPUT_AMOUNT" := by
  constructor
  · rw [(pancake_getAmountOut_C7 1000 1000000 2000000).1
      (by norm_num) (by norm_num) (by norm_num)]
    congr 1
    rw [show (((1000 : ℤ) : ℚ) * (1 - 25/10000) * ((2000000 : ℤ) : ℚ)) /
        (((1000000 : ℤ) : ℚ) + ((1000 : ℤ) : ℚ) * (1 - 25/10000)) =
        (1995000000 : ℚ) / 1000997.5 by norm_num]
    rw [show ((1995000000 : ℚ) / 1000997.5) = 3990000000/2001995 by norm_num]
    refine Int.floor_eq_iff.mpr ⟨by norm_num, by norm_num⟩
  · exact (pancake_getAmountOut_C7 0 1000000 2000000).2.1 le_rfl

/-- C8: adapter operations are total for recoverable conditions.  The
single-pool adapter's `findPools` (a plain function into `List Pool`,
never throwing) returns the empty list when the catalog declares no active
find-pools function, when the method address or function name is missing,
when the on-chain view throws, and when no returned pool matches the
requested pair; and the path-routed adapter's `estimateAmountOut` returns
the deterministic fallback `floor(amountIn * 0.9)` whenever its route
evaluation throws, instead of propagating the error. -/
theorem adapter_total_C8 :
    (∀ (dex : DexInfo) (faIn faOut : String) (tIn tOut : Option String)
        (view : Option (List HypRawPool)) (est : HypRawPool → ℕ),
      dex.functions.find? (fun f => f.functionType = "FIND_POOLS" && f.isActive) = none →
      hyperionFindPools dex faIn faOut tIn tOut view est = []) ∧
    (∀ (dex : DexInfo) (faIn faOut : String) (tIn tOut : Option String)
        (view : Option (List HypRawPool)) (est : HypRawPool → ℕ) (fn : DexFunction),
      dex.functions.find? (fun f => f.functionType = "FIND_POOLS" && f.isActive) = some fn →
      (dex.methodAddress = "" ∨ fn.functionName = "") →
      hyperionFindPools dex faIn faOut tIn tOut view est = []) ∧
    (∀ (dex : DexInfo) (faIn faOut : String) (tIn tOut : Option String)
        (est : HypRawPool → ℕ),
      hyperionFindPools dex faIn faOut tIn tOut none est = []) ∧
    (∀ (dex : DexInfo) (faIn faOut : String) (tIn tOut : Option String)
        (pools : List HypRawPool) (est : HypRawPool → ℕ),
      pools.filter (hypPairFilter faIn faOut tIn tOut) = [] →
      hyperionFindPools dex faIn faOut tIn tOut (some pools) est = []) ∧
    (∀ (route : PancakeRoute) (amountIn : ℤ) (e : String),
      pancakeRouteOutput route amountIn = .error e →
      (pancakeEstimateAmountOut route amountIn).estimatedOutput =
        ⌊(amountIn : ℚ) * (9/10)⌋) := by
  refine ⟨?_, ?_, ?_, ?_, ?_⟩
  · intro dex faIn faOut tIn tOut view est hf
    unfold hyperionFindPools
    rw [hf]
  · intro dex faIn faOut tIn tOut view est fn hf hmiss
    unfold hyperionFindPools
    rw [hf]
    dsimp only
    rw [if_pos hmiss]
  · intro dex faIn faOut tIn tOut est
    unfold hyperionFindPools
    cases hf : dex.functions.find? (fun f => f.functionType = "FIND_POOLS" && f.isActive) with
    | none => rfl
    | some fn =>
      dsimp only
      by_cases h1 : dex.methodAddress = "" ∨ fn.functionName = ""
      · rw [if_pos h1]
      · rw [if_neg h1]
        by_cases h2 : strContains fn.functionName "::"
        · rw [if_neg (by simp [h2])]
          cases hsp : fn.functionName.splitOn "::" with
          | nil => rfl
          | cons m rest =>
            cases rest with
            | nil => rfl
            | cons f rest2 =>
              dsimp only
              by_cases h3 : m = "" ∨ f = ""
              · rw [if_pos h3]
              · rw [if_neg h3]
        · rw [if_pos (by simp [h2])]
  · intro dex faIn faOut tIn tOut pools est hfil
    unfold hyperionFindPools
    cases hf : dex.functions.find? (fun f => f.functionType = "FIND_POOLS" && f.isActive) with
    | none => rfl
    | some fn =>
      dsimp only
      by_cases h1 : dex.methodAddress = "" ∨ fn.functionName = ""
      · rw [if_pos h1]
      · rw [if_neg h1]
        by_cases h2 : strContains fn.functionName "::"
        · rw [if_neg (by simp [h2])]
          cases hsp : fn.functionName.splitOn "::" with
          | nil => rfl
          | cons m rest =>
            cases rest with
            | nil => rfl
            | cons f rest2 =>
              dsimp only
              by_cases h3 : m = "" ∨ f = ""
              · rw [if_pos h3]
              · rw [if_neg h3]
                rw [hfil]
                rfl
        · rw [if_pos (by simp [h2])]
  · intro route amountIn e h
    simp only [pancakeEstimateAmountOut, h]

/-- Witness for C8: a catalog entry with no find-pools function yields no
pools, and a failed reserve fetch on a direct route estimates
`floor(1000 * 0.9) = 900`. -/
theorem adapter_total_C8_witness :
    hyperionFindPools exDexNoFn "0xaaa" "0xbbb" none none none (fun _ => 0) = [] ∧
    (pancakeEstimateAmountOut (.direct none) 1000).estimatedOutput = 900 := by
  constructor
  · exact adapter_total_C8.1 exDexNoFn "0xaaa" "0xbbb" none none none (fun _ => 0) rfl
  · rw [adapter_total_C8.2.2.2.2 (.direct none) 1000 "reserve fetch failed" rfl]
    rw [show ((1000 : ℤ) : ℚ) * (9/10) = ((900 : ℤ) : ℚ) by norm_num]
    exact Int.floor_intCast 900

theorem flatten_perm {α : Type} {l1 l2 : List (List α)} (h : l1.Perm l2) :
    l1.flatten.Perm l2.flatten := by
  induction h with
  | nil => exact .refl _
  | cons x _ ih => simpa using ih.append_left x
  | swap x y l =>
    simp only [List.flatten_cons]
    rw [← List.append_assoc, ← List.append_assoc]
    exact List.perm_append_comm.append_right _
  | trans _ _ ih1 ih2 => exact ih1.trans ih2

theorem filteredWithFallback_perm (req : SwapRequest) {a b : List Pool} (h : a.Perm b) :
    (filteredWithFallback req a).Perm (filteredWithFallback req b) := by
  unfold filteredWithFallback
  have h1 := h.filter (matchesPairFilter req)
  have hiso : (a.filter (matchesPairFilter req)).isEmpty
      = (b.filter (matchesPairFilter req)).isEmpty := by
    have hlen := h1.length_eq
    cases ha : a.filter (matchesPairFilter req) <;>
      cases hb : b.filter (matchesPairFilter req) <;> simp_all
  by_cases he : (a.filter (matchesPairFilter req)).isEmpty = true
  · rw [if_pos he, if_pos (hiso ▸ he)]
    exact h.filter _
  · rw [if_neg he, if_neg (hiso ▸ he)]
    exact h1

theorem survivors_perm (req : SwapRequest) (est : Pool → ℤ → Option ℕ) (slip : ℚ)
    (amount : ℤ) {ars1 ars2 : List (List Pool)} (h : ars1.Perm ars2) :
    (survivors req est slip amount ars1).Perm (survivors req est slip amount ars2) := by
  unfold survivors
  exact ((filteredWithFallback_perm req (flatten_perm h)).map _).filter _

theorem sorted_strict_of_ne : ∀ {l : List Pool}, l.Sorted poolDescRel →
    l.Pairwise (fun a b => a.estimatedOutput ≠ b.estimatedOutput) →
    l.Sorted poolStrictRel := by
  intro l
  induction l with
  | nil => intro _ _; simp [List.Sorted]
  | cons x xs ih =>
    intro hs hne
    rcases List.pairwise_cons.1 hne with ⟨hx, hxs⟩
    rcases List.sorted_cons.1 hs with ⟨hall, hrest⟩
    refine List.sorted_cons.2 ⟨?_, ih hrest hxs⟩
    intro b hb
    exact lt_of_le_of_ne (hall b hb) (Ne.symm (hx b hb))

/-- C9 counterexample: with two adapters returning distinct pools of equal
re-quoted output, the ranked list (here projected to adapter identity)
depends on the order the adapters were queried: the stable sort keeps
insertion order among ties, so swapping the two adapters swaps the
ranking. -/
theorem aggregation_not_commutative_C9 :
    ([[exPoolCel], [exPool]] : List (List Pool)).Perm [[exPool], [exPoolCel]] ∧
    (aggregateRanked exSwapRequest exEstConst (1/2) 100 [[exPool], [exPoolCel]]).map
      Pool.dexName = ["Hyperion", "Cellana"] ∧
    (aggregateRanked exSwapRequest exEstConst (1/2) 100 [[exPoolCel], [exPool]]).map
      Pool.dexName = ["Cellana", "Hyperion"] ∧
    aggregateRanked exSwapRequest exEstConst (1/2) 100 [[exPool], [exPoolCel]] ≠
      aggregateRanked exSwapRequest exEstConst (1/2) 100 [[exPoolCel], [exPool]] := by
  refine ⟨by decide, by decide, by decide, ?_⟩
  intro h
  have h1 : (aggregateRanked exSwapRequest exEstConst (1/2) 100
      [[exPool], [exPoolCel]]).map Pool.dexName = ["Hyperion", "Cellana"] := by decide
  have h2 : (aggregateRanked exSwapRequest exEstConst (1/2) 100
      [[exPoolCel], [exPool]]).map Pool.dexName = ["Cellana", "Hyperion"] := by decide
  rw [h, h2] at h1
  exact absurd h1 (by decide)

/-- C9 amended: pool aggregation is commutative in adapter order provided
the surviving pools' re-quoted estimated outputs are pairwise distinct;
with ties, the stable descending sort orders tied pools by adapter query
order, so the ranked list can differ. -/
theorem aggregation_commutative_amended (req : SwapRequest) (est : Pool → ℤ → Option ℕ)
    (slip : ℚ) (amount : ℤ) (ars1 ars2 : List (List Pool)) (hperm : ars1.Perm ars2)
    (hdist : (survivors req est slip amount ars1).Pairwise
      (fun a b => a.estimatedOutput ≠ b.estimatedOutput)) :
    aggregateRanked req est slip amount ars1 = aggregateRanked req est slip amount ars2 := by
  have hsp := survivors_perm req est slip amount hperm
  have hsort_perm : ((survivors req est slip amount ars1).insertionSort poolDescRel).Perm
      ((survivors req est slip amount ars2).insertionSort poolDescRel) :=
    (List.perm_insertionSort _ _).trans (hsp.trans (List.perm_insertionSort _ _).symm)
  have hne1 : ((survivors req est slip amount ars1).insertionSort poolDescRel).Pairwise
      (fun a b => a.estimatedOutput ≠ b.estimatedOutput) :=
    ((List.perm_insertionSort poolDescRel _).pairwise_iff
      (fun hx => Ne.symm hx)).mpr hdist
  have hne2 : ((survivors req est slip amount ars2).insertionSort poolDescRel).Pairwise
      (fun a b => a.estimatedOutput ≠ b.estimatedOutput) :=
    (hsort_perm.pairwise_iff (fun hx => Ne.symm hx)).mp hne1
  have hstrict1 := sorted_strict_of_ne (List.sorted_insertionSort poolDescRel _) hne1
  have hstrict2 := sorted_strict_of_ne (List.sorted_insertionSort poolDescRel _) hne2
  have heq := List.eq_of_perm_of_sorted hsort_perm hstrict1 hstrict2
  unfold aggregateRanked
  rw [heq]

/-- Witness for the amended C9 theorem: with pairwise-distinct re-quoted
outputs the two adapter orders produce identical rankings. -/
theorem aggregation_commutative_amended_witness :
    aggregateRanked exSwapRequest exEstDistinct (1/2) 100 [[exPool], [exPoolCel]] =
      aggregateRanked exSwapRequest exEstDistinct (1/2) 100 [[exPoolCel], [exPool]] := by
  exact aggregation_commutative_amended exSwapRequest exEstDistinct (1/2) 100
    [[exPool], [exPoolCel]] [[exPoolCel], [exPool]] (by decide) (by decide)

theorem prepareTransferNode_eval (ts : TransferState) (env : PrepareTransferEnv)
    (td : TokenData) (h1 : env.userId ≠ 0) (h2 : ts.request.toAddress ≠ "")
    (h3 : ts.request.amountStr ≠ "") (hw : env.walletOk = true)
    (htd : env.tokenData = some td) (hnz : td.amount ≠ 0) :
    prepareTransferNode ts env =
      (if jsGtOpt ts.request.amountNum td.amount then
        transferPrepError ts "Insufficient balance."
      else
        match env.simResult with
        | none => transferPrepError ts "Transfer simulation failed"
        | some sim =>
          { ts with phase := .confirming,
                    preparedTransaction := some
                      { transferAmount := ts.request.amountNum.map (fun a =>
                          a * 10 ^ (td.decimals.getD
                            (env.registryDecimals (transferAssetType ts.request)))),
                        decimals := td.decimals.getD
                          (env.registryDecimals (transferAssetType ts.request)),
                        assetType := transferAssetType ts.request,
                        gasEstimation :=
                          { totalGasCostInAPT :=
                              ((sim.gas_unit_price * sim.gas_used : ℕ) : ℚ) / 100000000,
                            maxGasCostInAPT :=
                              ((sim.gas_unit_price * sim.max_gas_amount : ℕ) : ℚ)
                                / 100000000 } } }) := by
  unfold prepareTransferNode
  rw [if_neg h1, if_neg h2, if_neg h3, if_neg (by simp [hw])]
  simp only [htd]
  rw [if_neg hnz]

/-- C10: in the transfer preparing phase (with the token found), the
insufficient-balance error is raised exactly when the human-readable
`parseFloat(amount)` exceeds the raw smallest-unit balance; the scaled
`amount * 10^decimals` is never compared against the balance, so whenever
the parsed amount is at most the raw balance, preparation proceeds to
`confirming` carrying the scaled amount, even when that scaled amount
exceeds the balance. -/
theorem transfer_balance_check_C10 (ts : TransferState) (env : PrepareTransferEnv)
    (td : TokenData) (a : ℚ)
    (h1 : env.userId ≠ 0) (h2 : ts.request.toAddress ≠ "")
    (h3 : ts.request.amountStr ≠ "") (hw : env.walletOk = true)
    (htd : env.tokenData = some td) (hnz : td.amount ≠ 0)
    (ha : ts.request.amountNum = some a) (herr : ts.error = none) :
    ((prepareTransferNode ts env).error = some "Insufficient balance." ↔
      (td.amount : ℚ) < a) ∧
    (∀ sim, env.simResult = some sim → a ≤ (td.amount : ℚ) →
      (prepareTransferNode ts env).phase = .confirming ∧
      ((prepareTransferNode ts env).preparedTransaction.map
        (fun pt => pt.transferAmount)) =
        some (some (a * 10 ^ (td.decimals.getD
          (env.registryDecimals (transferAssetType ts.request)))))) := by
  rw [prepareTransferNode_eval ts env td h1 h2 h3 hw htd hnz]
  have hjs : jsGtOpt ts.request.amountNum td.amount = decide ((td.amount : ℚ) < a) := by
    rw [ha]; rfl
  constructor
  · by_cases hgt : (td.amount : ℚ) < a
    · rw [if_pos (by rw [hjs]; simpa using hgt)]
      simp [transferPrepError, hgt]
    · rw [if_neg (by rw [hjs]; simpa using hgt)]
      cases hsim : env.simResult with
      | none => simp [transferPrepError, hgt]
      | some sim => simp [herr, hgt]
  · intro sim hsim hle
    rw [if_neg (by rw [hjs]; simpa using not_lt.mpr hle), hsim]
    exact ⟨rfl, by simp [ha]⟩

/-- Witness for C10: parsed amount 2 against a raw balance of 100 smallest
units passes the balance check and prepares the scaled amount
2 * 10^8 = 200000000, which exceeds the raw balance 100. -/
theorem transfer_balance_check_C10_witness :
    (prepareTransferNode exTransferState exTransferEnv).phase = .confirming ∧
    ((prepareTransferNode exTransferState exTransferEnv).preparedTransaction.map
      (fun pt => pt.transferAmount)) = some (some ((2 : ℚ) * 10 ^ 8)) ∧
    (100 : ℚ) < 2 * 10 ^ 8 := by
  have hd : ((some 8 : Option ℕ).getD
      (exTransferEnv.registryDecimals (transferAssetType exTransferState.request))) = 8 := rfl
  have h := (transfer_balance_check_C10 exTransferState exTransferEnv
    { amount := 100, decimals := some 8 } 2 (by decide) (by decide) (by decide) rfl rfl
    (by decide) rfl rfl).2
    { gas_unit_price := 100, gas_used := 100000, max_gas_amount := 2000000 } rfl
    (by norm_num)
  refine ⟨h.1, ?_, by norm_num⟩
  rw [h.2]
  rfl
